import Mathlib

/-!
Verification of the motion-controlled rhythm game core
(gesture classification engine + game/arrow engine).

All definitions are shallow embeddings of the TypeScript source:
* `src/lib/gestureDetection.ts`   — gesture classifier
* `src/lib/gameConstants.ts`      — difficulty/scoring policy tables
* `src/hooks/useGameEngine.ts`    — game engine (tick, processGesture, lifecycle)
* `src/components/DanceGame/CalibrationScreen.tsx` — calibration averaging

Numeric values (normalized coordinates, timestamps in ms, positions) are
modelled as `ℚ`; counters as `ℕ`.  JavaScript `Date.now()` is made explicit
as a `wallClock` argument wherever the source calls it, so that its effect
on results is visible in the model.
-/

/-- One tracked body keypoint (`Landmark` in `src/lib/types.ts`).
`visibility` is optional in the source (`visibility?: number`). -/
structure Landmark where
  x : ℚ
  y : ℚ
  z : ℚ
  visibility : Option ℚ
  deriving DecidableEq, Repr

/-- A pose frame (`PoseResult` in `src/lib/types.ts`); `worldLandmarks` is
unused by the embedded code and omitted. -/
structure PoseResult where
  landmarks : List Landmark
  timestamp : ℚ
  deriving DecidableEq, Repr

/-- Calibration baseline (`CalibrationData` in `src/lib/types.ts`). -/
structure CalibrationData where
  leftHip : Landmark
  rightHip : Landmark
  leftShoulder : Landmark
  rightShoulder : Landmark
  nose : Landmark
  leftWrist : Landmark
  rightWrist : Landmark
  hipCenterY : ℚ
  shoulderCenterY : ℚ
  timestamp : ℚ
  deriving DecidableEq, Repr

/- Landmark indices used by the embedded code (`POSE_LANDMARKS` in
`src/lib/types.ts`). -/

def POSE_LANDMARKS_NOSE : ℕ := 0
def POSE_LANDMARKS_LEFT_SHOULDER : ℕ := 11
def POSE_LANDMARKS_RIGHT_SHOULDER : ℕ := 12
def POSE_LANDMARKS_LEFT_WRIST : ℕ := 15
def POSE_LANDMARKS_RIGHT_WRIST : ℕ := 16
def POSE_LANDMARKS_LEFT_HIP : ℕ := 23
def POSE_LANDMARKS_RIGHT_HIP : ℕ := 24
def POSE_LANDMARKS_LEFT_ANKLE : ℕ := 27
def POSE_LANDMARKS_RIGHT_ANKLE : ℕ := 28

/- ----------------------------------------------------------------
   Game constants (`src/lib/gameConstants.ts`)
   ---------------------------------------------------------------- -/

def SCORING_PERFECT_POINTS : ℕ := 100
def SCORING_GOOD_POINTS : ℕ := 50
def SCORING_MISS_POINTS : ℕ := 0

/-- `COMBO_MULTIPLIERS` tier table: `(threshold, multiplier)` pairs in
source order. -/
def COMBO_MULTIPLIERS : List (ℕ × ℕ) :=
  [(0, 1), (10, 2), (25, 3), (50, 4)]

def HIT_ZONE_PERFECT_START : ℚ := mkRat 19 20   -- 0.95
def HIT_ZONE_PERFECT_END : ℚ := 1               -- 1.0
def HIT_ZONE_GOOD_START : ℚ := mkRat 17 20      -- 0.85
def HIT_ZONE_GOOD_END : ℚ := mkRat 19 20        -- 0.95

inductive Difficulty
  | easy
  | medium
  | hard
  deriving DecidableEq, Repr

/-- `DIFFICULTY_SETTINGS[d].arrowTravelTime` (ms for position 0 → 1). -/
def arrowTravelTime : Difficulty → ℚ
  | .easy => 3000
  | .medium => 2000
  | .hard => 1500

/-- `DIFFICULTY_SETTINGS[d].spawnInterval` (ms between spawn attempts). -/
def spawnInterval : Difficulty → ℚ
  | .easy => 2000
  | .medium => 1500
  | .hard => 1000

/-- `getComboMultiplier`: walks the tier table in order, keeping the last
tier whose threshold the combo reaches. -/
def getComboMultiplier (combo : ℕ) : ℕ :=
  COMBO_MULTIPLIERS.foldl
    (fun multiplier tier => if tier.1 ≤ combo then tier.2 else multiplier) 1

inductive HitRating
  | perfect
  | good
  | miss
  deriving DecidableEq, Repr

/-- `calculateHitScore`: base points times the multiplier of the (already
incremented) combo.  The source restricts `rating` to `perfect | good`
at the type level; `miss` is given the source's `MISS_POINTS`. -/
def calculateHitScore (rating : HitRating) (combo : ℕ) : ℕ :=
  let basePoints :=
    match rating with
    | .perfect => SCORING_PERFECT_POINTS
    | .good => SCORING_GOOD_POINTS
    | .miss => SCORING_MISS_POINTS
  basePoints * getComboMultiplier combo

/-- `getHitRating` from `src/lib/gameConstants.ts`. -/
def getHitRating (position : ℚ) : HitRating :=
  if HIT_ZONE_PERFECT_START ≤ position ∧ position ≤ HIT_ZONE_PERFECT_END then
    .perfect
  else if HIT_ZONE_GOOD_START ≤ position ∧ position < HIT_ZONE_PERFECT_START then
    .good
  else
    .miss

/-- `isInHitZone`. -/
def isInHitZone (position : ℚ) : Bool :=
  decide (HIT_ZONE_GOOD_START ≤ position) && decide (position ≤ HIT_ZONE_PERFECT_END)

/-- `hasMissedHitZone`. -/
def hasMissedHitZone (position : ℚ) : Bool :=
  decide (HIT_ZONE_PERFECT_END < position)

/-- Non-null gesture types (`Exclude<GestureType, null>`). -/
inductive GestureKind
  | waveLeft
  | waveRight
  | jump
  deriving DecidableEq, Repr

/-- `GESTURE_TO_LANE`. -/
def GESTURE_TO_LANE : GestureKind → ℕ
  | .waveLeft => 0
  | .jump => 1
  | .waveRight => 2

/-- A classified gesture event (`GestureEvent` in `src/lib/types.ts`). -/
structure GestureEvent where
  type : GestureKind
  timestamp : ℚ
  confidence : ℚ
  deriving DecidableEq, Repr

/- ----------------------------------------------------------------
   Theorems for the policy tables (claims C6 and C9)
   ---------------------------------------------------------------- -/

/-- Closed form of the tier-table fold. -/
theorem getComboMultiplier_eq (c : ℕ) :
    getComboMultiplier c =
      if 50 ≤ c then 4 else if 25 ≤ c then 3 else if 10 ≤ c then 2 else 1 := by
  simp [getComboMultiplier, COMBO_MULTIPLIERS, List.foldl]

/-- C6: For every position p, `getHitRating p = perfect` iff `0.95 ≤ p ≤ 1.0`,
`good` iff `0.85 ≤ p < 0.95`, and `miss` otherwise (`p < 0.85` or `1.0 < p`);
in particular `getHitRating 0.95 = perfect`, `getHitRating 0.94999 = good`,
`getHitRating 0.849999 = miss`, `getHitRating 1.0 = perfect`,
`getHitRating 1.0001 = miss`.  (Decimal boundary values are written as the
exact fractions 19/20 = 0.95, 17/20 = 0.85, 94999/100000 = 0.94999,
849999/1000000 = 0.849999, 10001/10000 = 1.0001.) -/
theorem getHitRating_spec :
    (∀ p : ℚ,
      (getHitRating p = .perfect ↔ mkRat 19 20 ≤ p ∧ p ≤ 1) ∧
      (getHitRating p = .good ↔ mkRat 17 20 ≤ p ∧ p < mkRat 19 20) ∧
      (getHitRating p = .miss ↔ p < mkRat 17 20 ∨ 1 < p)) ∧
    getHitRating (mkRat 19 20) = .perfect ∧
    getHitRating (mkRat 94999 100000) = .good ∧
    getHitRating (mkRat 849999 1000000) = .miss ∧
    getHitRating 1 = .perfect ∧
    getHitRating (mkRat 10001 10000) = .miss := by
  have hgp : mkRat 17 20 < mkRat 19 20 := by decide
  have hp1 : mkRat 19 20 < 1 := by decide
  refine ⟨fun p => ?_, by decide, by decide, by decide, by decide, by decide⟩
  unfold getHitRating HIT_ZONE_PERFECT_START HIT_ZONE_PERFECT_END HIT_ZONE_GOOD_START
  split_ifs with h1 h2
  · refine ⟨⟨fun _ => h1, fun _ => rfl⟩,
      ⟨fun h => h.elim, fun h => ?_⟩, ⟨fun h => h.elim, fun h => ?_⟩⟩
    · exact absurd h1.1 (not_le.mpr h.2)
    · rcases h with h | h
      · exact absurd h1.1 (not_le.mpr (lt_trans h hgp))
      · exact absurd h1.2 (not_le.mpr h)
  · refine ⟨⟨fun h => h.elim, fun h => absurd h h1⟩,
      ⟨fun _ => h2, fun _ => rfl⟩, ⟨fun h => h.elim, fun h => ?_⟩⟩
    rcases h with h | h
    · exact absurd h2.1 (not_le.mpr h)
    · exact absurd (lt_trans h2.2 hp1) (not_lt.mpr (le_of_lt h))
  · refine ⟨⟨fun h => h.elim, fun h => absurd h h1⟩,
      ⟨fun h => h.elim, fun h => absurd h h2⟩, ⟨fun _ => ?_, fun _ => rfl⟩⟩
    push_neg at h1 h2
    by_cases hp : p < mkRat 17 20
    · exact Or.inl hp
    · exact Or.inr (h1 (h2 (not_lt.mp hp)))

/-- C9: the combo multiplier is a monotonically non-decreasing step function
of the combo matching the tier table (≥50 → 4, ≥25 → 3, ≥10 → 2, else 1);
in particular it is 1 at 9, 2 at 10, 3 at 49 and 4 at 50. -/
theorem getComboMultiplier_spec :
    (∀ c₁ c₂ : ℕ, c₁ ≤ c₂ → getComboMultiplier c₁ ≤ getComboMultiplier c₂) ∧
    (∀ c : ℕ, getComboMultiplier c =
      if 50 ≤ c then 4 else if 25 ≤ c then 3 else if 10 ≤ c then 2 else 1) ∧
    getComboMultiplier 9 = 1 ∧
    getComboMultiplier 10 = 2 ∧
    getComboMultiplier 49 = 3 ∧
    getComboMultiplier 50 = 4 := by
  refine ⟨fun c₁ c₂ h => ?_, getComboMultiplier_eq, by decide, by decide,
    by decide, by decide⟩
  rw [getComboMultiplier_eq, getComboMultiplier_eq]
  split_ifs <;> omega

/-- Witness for C9: instantiates the monotonicity part at 9 ≤ 50. -/
theorem getComboMultiplier_spec_witness :
    9 ≤ 50 ∧ getComboMultiplier 9 ≤ getComboMultiplier 50 :=
  ⟨by decide, getComboMultiplier_spec.1 9 50 (by decide)⟩

/- ----------------------------------------------------------------
   Gesture classifier (`src/lib/gestureDetection.ts`)
   ---------------------------------------------------------------- -/

/-- `PositionSample`: one wrist Y-position sample with its timestamp. -/
structure PositionSample where
  y : ℚ
  timestamp : ℚ
  deriving DecidableEq, Repr

/-- `WristTrackingState`. -/
structure WristTrackingState where
  samples : List PositionSample
  lastGestureTime : ℚ
  deriving DecidableEq, Repr

/-- `JumpTrackingState`. -/
structure JumpTrackingState where
  isInJump : Bool
  lastGestureTime : ℚ
  deriving DecidableEq, Repr

/-- `GestureTrackingState`. -/
structure GestureTrackingState where
  leftWrist : WristTrackingState
  rightWrist : WristTrackingState
  jump : JumpTrackingState
  deriving DecidableEq, Repr

/-- `DEFAULT_GESTURE_OPTIONS` as a record of the four required options. -/
structure GestureOptions where
  waveThreshold : ℚ
  waveTimeWindow : ℚ
  jumpThreshold : ℚ
  debounceTime : ℚ
  deriving DecidableEq, Repr

/-- `DEFAULT_GESTURE_OPTIONS = {waveThreshold: 0.05, waveTimeWindow: 500,
jumpThreshold: 0.08, debounceTime: 500}` (0.05 = 1/20, 0.08 = 2/25). -/
def DEFAULT_GESTURE_OPTIONS : GestureOptions :=
  { waveThreshold := mkRat 1 20
    waveTimeWindow := 500
    jumpThreshold := mkRat 2 25
    debounceTime := 500 }

/-- `createInitialGestureState`. -/
def createInitialGestureState : GestureTrackingState :=
  { leftWrist := { samples := [], lastGestureTime := 0 }
    rightWrist := { samples := [], lastGestureTime := 0 }
    jump := { isInJump := false, lastGestureTime := 0 } }

/-- `addPositionSample`: drops samples at or before `timestamp - timeWindow`
(the source keeps samples with `s.timestamp > cutoffTime`) and appends the
new sample. -/
def addPositionSample (state : WristTrackingState) (y : ℚ) (timestamp : ℚ)
    (timeWindow : ℚ) : WristTrackingState :=
  let cutoffTime := timestamp - timeWindow
  { state with
    samples :=
      state.samples.filter (fun s => decide (cutoffTime < s.timestamp)) ++
        [{ y := y, timestamp := timestamp }] }

/-- Accumulator of the min/max scan inside `detectWave`.  The source
initializes `minY = Infinity`, `maxY = -Infinity`; those sentinel values are
modelled as `none` (any sample's `y` compares below/above them). -/
structure WaveExtrema where
  minY : Option ℚ
  minTime : ℚ
  maxY : Option ℚ
  maxTime : ℚ
  deriving DecidableEq, Repr

/-- One iteration of the `for (const sample of samples)` loop in
`detectWave`: `if (sample.y < minY) ...; if (sample.y > maxY) ...`. -/
def waveScanStep (e : WaveExtrema) (s : PositionSample) : WaveExtrema :=
  let e1 :=
    if (match e.minY with
        | none => true
        | some v => decide (s.y < v)) then
      { e with minY := some s.y, minTime := s.timestamp }
    else e
  if (match e1.maxY with
      | none => true
      | some v => decide (v < s.y)) then
    { e1 with maxY := some s.y, maxTime := s.timestamp }
  else e1

/-- The min/max scan of `detectWave` over the whole sample window. -/
def waveExtrema (samples : List PositionSample) : WaveExtrema :=
  samples.foldl waveScanStep { minY := none, minTime := 0, maxY := none, maxTime := 0 }

/-- `detectWave`: returns `(detected, confidence)`.  With fewer than 3
samples, or amplitude below threshold, or the min- and max-sample less than
50 ms apart, no detection.  The `| _, _` fallback mirrors the unreachable
state where the scan saw no sample (impossible once `samples.length ≥ 3`). -/
def detectWave (samples : List PositionSample) (threshold : ℚ) : Bool × ℚ :=
  if samples.length < 3 then (false, 0)
  else
    let e := waveExtrema samples
    match e.minY, e.maxY with
    | some minY, some maxY =>
      let amplitude := maxY - minY
      if amplitude < threshold then (false, 0)
      else if 50 < |e.minTime - e.maxTime| then
        (true, min 1 (amplitude / (threshold * 2)))
      else (false, 0)
    | _, _ => (false, 0)

/-- Result triple of `detectJump`. -/
structure JumpResult where
  detected : Bool
  newState : JumpTrackingState
  confidence : ℚ
  deriving DecidableEq, Repr

/-- `detectJump`.  The source stores `Date.now()` into `lastGestureTime
 on detection; that wall-clock read is made explicit as the `wallClock`
argument.  The ankle-corroboration guard `calibration.leftHip &&
calibration.rightHip` is always truthy (both fields are objects) and is
therefore not modelled as a condition. -/
def detectJump (landmarks : List Landmark) (calibration : CalibrationData)
    (state : JumpTrackingState) (threshold : ℚ) (wallClock : ℚ) : JumpResult :=
  match landmarks.get? POSE_LANDMARKS_LEFT_HIP,
        landmarks.get? POSE_LANDMARKS_RIGHT_HIP with
  | some leftHip, some rightHip =>
    let leftVisible := decide (mkRat 1 2 < leftHip.visibility.getD 0)
    let rightVisible := decide (mkRat 1 2 < rightHip.visibility.getD 0)
    if !leftVisible && !rightVisible then
      { detected := false, newState := state, confidence := 0 }
    else
      let currentHipY := (leftHip.y + rightHip.y) / 2
      let baselineHipY := calibration.hipCenterY
      let rise := baselineHipY - currentHipY
      let ankleRise :=
        match landmarks.get? POSE_LANDMARKS_LEFT_ANKLE,
              landmarks.get? POSE_LANDMARKS_RIGHT_ANKLE with
        | some leftAnkle, some rightAnkle =>
          let baselineAnkleY := calibration.hipCenterY + mkRat 3 10
          let currentAnkleY := (leftAnkle.y + rightAnkle.y) / 2
          baselineAnkleY - currentAnkleY
        | _, _ => 0
      let isJumping := decide (threshold < rise)
      if isJumping && !state.isInJump then
        let jumpConfidence := min 1 (rise / (threshold * 2))
        let ankleBonus := if threshold * (mkRat 1 2) < ankleRise then mkRat 1 10 else 0
        { detected := true
          newState := { isInJump := true, lastGestureTime := wallClock }
          confidence := min 1 (jumpConfidence + ankleBonus) }
      else if !isJumping && state.isInJump then
        { detected := false
          newState := { isInJump := false, lastGestureTime := state.lastGestureTime }
          confidence := 0 }
      else
        { detected := false, newState := state, confidence := 0 }
  | _, _ => { detected := false, newState := state, confidence := 0 }

/-- The per-wrist block of `processGestureFrame` (the source repeats this
code verbatim for the left and the right wrist): if the wrist landmark is
present with visibility above 0.5, append its sample; past debounce, run
`detectWave`; on detection clear the window and stamp `lastGestureTime`.
Returns `(some confidence)` iff a wave was detected, plus the wrist's new
tracking state. -/
def processWrist (wrist : Option Landmark) (st : WristTrackingState)
    (timestamp : ℚ) (options : GestureOptions) : Option ℚ × WristTrackingState :=
  match wrist with
  | some w =>
    if mkRat 1 2 < w.visibility.getD 0 then
      let appended := addPositionSample st w.y timestamp options.waveTimeWindow
      if options.debounceTime < timestamp - st.lastGestureTime then
        let waveResult := detectWave appended.samples options.waveThreshold
        if waveResult.1 then
          (some waveResult.2, { samples := [], lastGestureTime := timestamp })
        else (none, appended)
      else (none, appended)
    else (none, st)
  | none => (none, st)

/-- Result of `processGestureFrame` (gesture `null` is `none`). -/
structure FrameResult where
  gesture : Option GestureKind
  newState : GestureTrackingState
  confidence : ℚ
  deriving DecidableEq, Repr

/-- `processGestureFrame`: strict priority left wave → right wave → jump.
`wallClock` is the value `Date.now()` would return during this call (it
reaches the result only through `detectJump`). -/
def processGestureFrame (landmarks : List Landmark)
    (calibration : CalibrationData) (state : GestureTrackingState)
    (timestamp : ℚ) (options : GestureOptions) (wallClock : ℚ) : FrameResult :=
  let leftWrist := landmarks.get? POSE_LANDMARKS_LEFT_WRIST
  let rightWrist := landmarks.get? POSE_LANDMARKS_RIGHT_WRIST
  let left := processWrist leftWrist state.leftWrist timestamp options
  match left.1 with
  | some conf =>
    { gesture := some .waveLeft
      newState := { leftWrist := left.2, rightWrist := state.rightWrist, jump := state.jump }
      confidence := conf }
  | none =>
    let right := processWrist rightWrist state.rightWrist timestamp options
    match right.1 with
    | some conf =>
      { gesture := some .waveRight
        newState := { leftWrist := left.2, rightWrist := right.2, jump := state.jump }
        confidence := conf }
    | none =>
      if options.debounceTime < timestamp - state.jump.lastGestureTime then
        let jumpResult := detectJump landmarks calibration state.jump
          options.jumpThreshold wallClock
        { gesture := if jumpResult.detected then some .jump else none
          newState := { leftWrist := left.2, rightWrist := right.2, jump := jumpResult.newState }
          confidence := if jumpResult.detected then jumpResult.confidence else 0 }
      else
        let jumpResult := detectJump landmarks calibration state.jump
          options.jumpThreshold wallClock
        { gesture := none
          newState :=
            { leftWrist := left.2
              rightWrist := right.2
              jump := { jumpResult.newState with
                          lastGestureTime := state.jump.lastGestureTime } }
          confidence := 0 }

/- ----------------------------------------------------------------
   Claim C2: detectWave on monotonic and rise-then-fall sequences
   ---------------------------------------------------------------- -/

/-- A strictly monotonic (rising-y) 3-sample sequence spanning 300 ms with
amplitude 0.1: y = 0.5, 0.55, 0.6 at t = 0, 150, 300. -/
def monotonicSamples300 : List PositionSample :=
  [{ y := mkRat 1 2, timestamp := 0 },
   { y := mkRat 11 20, timestamp := 150 },
   { y := mkRat 3 5, timestamp := 300 }]

/-- A monotonic 3-sample sequence whose extrema lie only 40 ms apart:
y = 0.5, 0.55, 0.6 at t = 0, 20, 40. -/
def monotonicSamples40 : List PositionSample :=
  [{ y := mkRat 1 2, timestamp := 0 },
   { y := mkRat 11 20, timestamp := 20 },
   { y := mkRat 3 5, timestamp := 40 }]

/-- A rise-then-fall sequence: the wrist rises 0.10 over 300 ms
(y 0.6 → 0.5) and then falls back (y 0.55): the §8 wave example. -/
def riseFallSamples : List PositionSample :=
  [{ y := mkRat 3 5, timestamp := 0 },
   { y := mkRat 11 20, timestamp := 150 },
   { y := mkRat 1 2, timestamp := 300 },
   { y := mkRat 11 20, timestamp := 400 }]

unseal Rat.add Rat.mul Rat.sub Rat.inv in
/-- Counterexample to C2: `monotonicSamples300` is strictly monotonic in
both y and time, its amplitude 0.1 exceeds the 0.05 threshold — and
`detectWave` *detects* it (with confidence 1), because the implementation
only requires the min- and max-samples to be more than 50 ms apart, not an
actual direction reversal. -/
theorem detectWave_monotonic_detected :
    List.Pairwise (fun a b => a.y < b.y) monotonicSamples300 ∧
    List.Pairwise (fun a b => a.timestamp < b.timestamp) monotonicSamples300 ∧
    mkRat 1 20 < mkRat 3 5 - mkRat 1 2 ∧
    detectWave monotonicSamples300 (mkRat 1 20) = (true, 1) := by
  refine ⟨?_, ?_, by decide, ?_⟩ <;> decide

/-- One scan step always leaves both extrema set (the first sample beats
the ±Infinity sentinels, and updates only ever replace a set value). -/
theorem waveScanStep_isSome (e : WaveExtrema) (s : PositionSample) :
    (waveScanStep e s).minY.isSome = true ∧ (waveScanStep e s).maxY.isSome = true := by
  rcases e with ⟨mY, mT, MY, MT⟩
  rcases mY with _ | v <;> rcases MY with _ | w <;>
    simp only [waveScanStep] <;> split_ifs <;> simp_all

/-- The scan keeps both extrema set once they are set. -/
theorem waveExtrema_foldl_isSome (xs : List PositionSample) :
    ∀ acc : WaveExtrema, acc.minY.isSome = true → acc.maxY.isSome = true →
      (xs.foldl waveScanStep acc).minY.isSome = true ∧
      (xs.foldl waveScanStep acc).maxY.isSome = true := by
  induction xs with
  | nil =>
    intro acc h1 h2
    exact ⟨h1, h2⟩
  | cons y ys ih =>
    intro acc h1 h2
    rw [List.foldl_cons]
    exact ih (waveScanStep acc y) (waveScanStep_isSome acc y).1
      (waveScanStep_isSome acc y).2

/-- On a nonempty window the scan returns definite extrema. -/
theorem waveExtrema_some (samples : List PositionSample) (h : samples ≠ []) :
    ∃ minY minTime maxY maxTime,
      waveExtrema samples =
        { minY := some minY, minTime := minTime, maxY := some maxY, maxTime := maxTime } := by
  rcases samples with _ | ⟨x, xs⟩
  · exact absurd rfl h
  · obtain ⟨h1, h2⟩ := waveExtrema_foldl_isSome xs
      (waveScanStep { minY := none, minTime := 0, maxY := none, maxTime := 0 } x)
      (waveScanStep_isSome _ _).1 (waveScanStep_isSome _ _).2
    rcases hE : xs.foldl waveScanStep
        (waveScanStep { minY := none, minTime := 0, maxY := none, maxTime := 0 } x)
      with ⟨mY, mT, MY, MT⟩
    rw [hE] at h1 h2
    rcases mY with _ | mn
    · simp at h1
    rcases MY with _ | mx
    · simp at h2
    exact ⟨mn, mT, mx, MT, hE⟩

unseal Rat.add Rat.mul Rat.sub Rat.inv in
/-- C2 as amended: `detectWave` returns `detected:false` exactly when the
window has fewer than 3 samples, the amplitude `max(y) − min(y)` is below
the threshold, or the min- and max-samples lie within 50 ms of each other —
there is no direction-reversal test, so a monotonic sequence with
above-threshold amplitude whose extrema are more than 50 ms apart IS
detected.  With ≥ 3 samples the extrema always exist, and detection holds
iff amplitude ≥ threshold and the extrema are > 50 ms apart.  Concretely:
a monotonic rise of 0.1 spanning only 40 ms is rejected, the same rise
spanning 300 ms is detected with confidence 1, and the §8 sequence rising
0.10 over 300 ms then falling, with waveThreshold = 0.05, is detected with
confidence 1. -/
theorem detectWave_spec_amended :
    (∀ (samples : List PositionSample) (threshold : ℚ), samples.length < 3 →
      detectWave samples threshold = (false, 0)) ∧
    (∀ samples : List PositionSample, ¬samples.length < 3 →
      ∃ minY minTime maxY maxTime,
        waveExtrema samples =
          { minY := some minY, minTime := minTime, maxY := some maxY, maxTime := maxTime }) ∧
    (∀ (samples : List PositionSample) (threshold minY minTime maxY maxTime : ℚ),
      ¬samples.length < 3 →
      waveExtrema samples =
        { minY := some minY, minTime := minTime, maxY := some maxY, maxTime := maxTime } →
      ((detectWave samples threshold).1 = true ↔
        threshold ≤ maxY - minY ∧ 50 < |minTime - maxTime|)) ∧
    detectWave monotonicSamples40 (mkRat 1 20) = (false, 0) ∧
    detectWave monotonicSamples300 (mkRat 1 20) = (true, 1) ∧
    detectWave riseFallSamples (mkRat 1 20) = (true, 1) := by
  refine ⟨?_, ?_, ?_, by decide, by decide, by decide⟩
  · intro samples threshold h
    unfold detectWave
    rw [if_pos h]
  · intro samples hlen
    refine waveExtrema_some samples (fun hnil => hlen ?_)
    rw [hnil]
    decide
  · intro samples threshold minY minTime maxY maxTime hlen hex
    unfold detectWave
    rw [if_neg hlen]
    simp only []
    rw [hex]
    simp only []
    split_ifs with h1 h2
    · constructor
      · intro h
        simp at h
      · rintro ⟨ha, _⟩
        exact absurd h1 (not_lt.mpr ha)
    · constructor
      · intro _
        exact ⟨not_lt.mp h1, h2⟩
      · intro _
        rfl
    · constructor
      · intro h
        simp at h
      · rintro ⟨_, hb⟩
        exact absurd hb h2

unseal Rat.add Rat.mul Rat.sub Rat.inv in
/-- Witness for C2 (amended): the short-window clause applied to a
1-sample window, and the detection iff applied to the monotonic 300 ms
rise with its concretely computed extrema (min 0.5 at t = 0, max 0.6 at
t = 300). -/
theorem detectWave_spec_amended_witness :
    detectWave [{ y := mkRat 1 2, timestamp := 0 }] (mkRat 1 20) = (false, 0) ∧
    ((detectWave monotonicSamples300 (mkRat 1 20)).1 = true ↔
      mkRat 1 20 ≤ mkRat 3 5 - mkRat 1 2 ∧ 50 < |(0 : ℚ) - 300|) :=
  ⟨detectWave_spec_amended.1 [{ y := mkRat 1 2, timestamp := 0 }] (mkRat 1 20) (by decide),
   detectWave_spec_amended.2.2.1 monotonicSamples300 (mkRat 1 20)
     (mkRat 1 2) 0 (mkRat 3 5) 300 (by decide) (by decide)⟩

/- ----------------------------------------------------------------
   Game engine (`src/hooks/useGameEngine.ts`)
   ---------------------------------------------------------------- -/

/-- An arrow/target (`Arrow` in `src/lib/types.ts`).  The source's string
`id` is modelled as a natural number; the engine only compares ids for
equality. -/
structure Arrow where
  id : ℕ
  lane : ℕ
  spawnTime : ℚ
  position : ℚ
  hit : Bool
  missed : Bool
  hitRating : Option HitRating
  deriving DecidableEq, Repr

inductive GameStatus
  | idle
  | countdown
  | playing
  | paused
  | ended
  deriving DecidableEq, Repr

/-- `GameState`. -/
structure GameState where
  status : GameStatus
  score : ℕ
  combo : ℕ
  maxCombo : ℕ
  perfectHits : ℕ
  goodHits : ℕ
  misses : ℕ
  arrows : List Arrow
  difficulty : Difficulty
  deriving DecidableEq, Repr

/-- `createInitialGameState`. -/
def createInitialGameState (difficulty : Difficulty) : GameState :=
  { status := .idle, score := 0, combo := 0, maxCombo := 0, perfectHits := 0
    goodHits := 0, misses := 0, arrows := [], difficulty := difficulty }

/-- `GameStats` (final statistics computed by `end`). -/
structure GameStats where
  score : ℕ
  maxCombo : ℕ
  perfectHits : ℕ
  goodHits : ℕ
  misses : ℕ
  totalArrows : ℕ
  accuracy : ℚ
  duration : ℚ
  deriving DecidableEq, Repr

/-- `HitResult`. -/
structure HitResult where
  hit : Bool
  arrow : Option Arrow
  rating : Option HitRating
  score : Option ℕ
  deriving DecidableEq, Repr

/-- The per-arrow body of `updateArrowPositions`: resolved arrows are
returned unchanged; unresolved arrows get
`position = max 0 ((now - spawnTime) / travelTime)`. -/
def updateArrowPosition (now : ℚ) (travelTime : ℚ) (arrow : Arrow) : Arrow :=
  if arrow.hit || arrow.missed then arrow
  else
    let timeSinceSpawn := now - arrow.spawnTime
    { arrow with position := max 0 (timeSinceSpawn / travelTime) }

/-- `updateArrowPositions`. -/
def updateArrowPositions (arrows : List Arrow) (now : ℚ)
    (difficulty : Difficulty) : List Arrow :=
  arrows.map (updateArrowPosition now (arrowTravelTime difficulty))

/-- The predicate deciding whether one arrow becomes newly missed in
`checkMissedArrows`: unresolved and past the hit zone. -/
def isNewlyMissed (arrow : Arrow) : Bool :=
  !(arrow.hit || arrow.missed) && hasMissedHitZone arrow.position

/-- The per-arrow marking of `checkMissedArrows`. -/
def markMissed (arrow : Arrow) : Arrow :=
  if arrow.hit || arrow.missed then arrow
  else if hasMissedHitZone arrow.position then
    { arrow with missed := true, hitRating := some .miss }
  else arrow

/-- `checkMissedArrows`: returns `(updatedArrows, missCount, missedArrows)`.
The source computes all three in a single `map` pass with side
accumulators; here the accumulators are expressed as `countP`/`filter`
over the same newly-missed predicate. -/
def checkMissedArrows (arrows : List Arrow) :
    List Arrow × ℕ × List Arrow :=
  (arrows.map markMissed,
   arrows.countP isNewlyMissed,
   (arrows.filter isNewlyMissed).map markMissed)

/-- `cleanupArrows`: drop arrows with `position > 1.5` (3/2). -/
def cleanupArrows (arrows : List Arrow) : List Arrow :=
  arrows.filter (fun arrow => !(decide (mkRat 3 2 < arrow.position)))

/-- One body of the `requestAnimationFrame` game loop
(`gameLoopRef.current` in `useGameEngine.ts`), restricted to the game
state it updates.  Spawning picks a weighted-random pattern
(`spawnArrows`/`Math.random`); the spawned arrows of this tick are
supplied as the `spawned` parameter so the step itself is deterministic.
The loop returns immediately unless status is `playing`; otherwise it
advances positions, marks newly missed arrows (`misses += missCount`,
`combo := 0` once per tick if `missCount > 0`), and removes arrows past
the 1.5 cleanup horizon. -/
def gameLoopStep (state : GameState) (timestamp : ℚ)
    (spawned : List Arrow) : GameState :=
  if state.status ≠ .playing then state
  else
    let arrows1 := updateArrowPositions (state.arrows ++ spawned) timestamp state.difficulty
    let checked := checkMissedArrows arrows1
    let missCount := checked.2.1
    let arrows2 := cleanupArrows checked.1
    { state with
      arrows := arrows2
      misses := state.misses + missCount
      combo := if 0 < missCount then 0 else state.combo }

/-- A sequence of game-loop ticks, each with its timestamp and the arrows
spawned during that tick. -/
def applyTicks (state : GameState) (ticks : List (ℚ × List Arrow)) : GameState :=
  ticks.foldl (fun s t => gameLoopStep s t.1 t.2) state

/-- `pause`: early-returns unless status is `playing`. -/
def pause (state : GameState) : GameState :=
  if state.status ≠ .playing then state
  else { state with status := .paused }

/-- `resume`: early-returns unless status is `paused`. -/
def resume (state : GameState) : GameState :=
  if state.status ≠ .paused then state
  else { state with status := .playing }

/-- `end` (named `endGame`; `end` is reserved in Lean): stops the loop,
computes final stats, transitions to `ended` and returns the stats that
are passed to the `onGameEnd` notification.  It has no status guard in the
source.  `totalArrowsSpawned` and `gameDuration` are the values of the
corresponding refs/state at call time. -/
def endGame (state : GameState) (totalArrowsSpawned : ℕ)
    (gameDuration : ℚ) : GameState × GameStats :=
  let totalHits := state.perfectHits + state.goodHits
  let totalAttempts := totalHits + state.misses
  let stats : GameStats :=
    { score := state.score
      maxCombo := state.maxCombo
      perfectHits := state.perfectHits
      goodHits := state.goodHits
      misses := state.misses
      totalArrows := totalArrowsSpawned
      accuracy := if 0 < totalAttempts then ((totalHits : ℚ) / (totalAttempts : ℚ)) * 100 else 0
      duration := gameDuration }
  ({ state with status := .ended }, stats)

/-- The candidate filter of `processGesture`: arrows in the gesture's lane
that are unresolved and currently inside the hit zone. -/
def candidateArrows (state : GameState) (lane : ℕ) : List Arrow :=
  state.arrows.filter
    (fun arrow =>
      decide (arrow.lane = lane) && !arrow.hit && !arrow.missed &&
        isInHitZone arrow.position)

/-- Distance to the perfect-zone start used by `processGesture`'s sort
comparator. -/
def distToPerfect (arrow : Arrow) : ℚ :=
  |arrow.position - HIT_ZONE_PERFECT_START|

/-- Selection of `targetArrows[0]` after the stable sort by
`|position - PERFECT_START|`: the earliest arrow attaining the minimal
distance.  (JavaScript's `Array.prototype.sort` is stable, so the first
element of the sorted array is the first listed arrow with minimal
comparator value; the fold below keeps the current best unless a strictly
smaller distance appears.) -/
def pickBetter (best : Option Arrow) (a : Arrow) : Option Arrow :=
  match best with
  | none => some a
  | some b => if distToPerfect a < distToPerfect b then some a else some b

/-- See `pickTarget`. -/
def pickTarget (arrows : List Arrow) : Option Arrow :=
  arrows.foldl pickBetter none

/-- `processGesture`: pure state-passing form, returning the `HitResult`
of the call together with the updated game state (the source mutates the
state via `setGameState`).  Early-outs: status not `playing`, or no
candidate arrow, or (defensively, unreachable) a `miss` rating. -/
def processGesture (state : GameState) (gesture : GestureEvent) :
    HitResult × GameState :=
  if state.status ≠ .playing then
    ({ hit := false, arrow := none, rating := none, score := none }, state)
  else
    let gestureLane := GESTURE_TO_LANE gesture.type
    match pickTarget (candidateArrows state gestureLane) with
    | none => ({ hit := false, arrow := none, rating := none, score := none }, state)
    | some hitArrow =>
      let rating := getHitRating hitArrow.position
      if rating = .miss then
        ({ hit := false, arrow := none, rating := none, score := none }, state)
      else
        let newCombo := state.combo + 1
        let score := calculateHitScore rating newCombo
        let updatedArrows :=
          state.arrows.map
            (fun arrow =>
              if arrow.id = hitArrow.id then
                { arrow with hit := true, hitRating := some rating }
              else arrow)
        let newMaxCombo := max state.maxCombo newCombo
        ({ hit := true, arrow := some hitArrow, rating := some rating, score := some score },
         { state with
            arrows := updatedArrows
            score := state.score + score
            combo := newCombo
            maxCombo := newMaxCombo
            perfectHits := if rating = .perfect then state.perfectHits + 1 else state.perfectHits
            goodHits := if rating = .good then state.goodHits + 1 else state.goodHits })

/- ----------------------------------------------------------------
   Calibration averaging
   (`calculateCalibration` in `src/components/DanceGame/CalibrationScreen.tsx`)
   ---------------------------------------------------------------- -/

/-- The per-sample qualification test of `averageLandmark`:
`(lm.visibility ?? 0) > 0.5`. -/
def qualifies (lm : Landmark) : Bool :=
  decide (mkRat 1 2 < lm.visibility.getD 0)

/-- The samples that contribute to one landmark's average: for each
captured pose, its landmark at `landmarkIndex` provided it exists and
qualifies.  This is exactly the set the source's accumulation loop sums
over. -/
def qualifyingSamples (poses : List PoseResult) (landmarkIndex : ℕ) :
    List Landmark :=
  poses.filterMap
    (fun pose =>
      match pose.landmarks.get? landmarkIndex with
      | some lm => if qualifies lm then some lm else none
      | none => none)

/-- `averageLandmark` (the inner closure of `calculateCalibration`):
averages x, y, z and visibility (`lm.visibility ?? 1` in the sum) over the
qualifying samples; with zero qualifying samples it returns the fixed
default `{x: 0.5, y: 0.5, z: 0, visibility: 0}`. -/
def averageLandmark (poses : List PoseResult) (landmarkIndex : ℕ) : Landmark :=
  let q := qualifyingSamples poses landmarkIndex
  match q with
  | [] => { x := mkRat 1 2, y := mkRat 1 2, z := 0, visibility := some 0 }
  | _ :: _ =>
    let count : ℚ := q.length
    { x := (q.map (fun lm => lm.x)).sum / count
      y := (q.map (fun lm => lm.y)).sum / count
      z := (q.map (fun lm => lm.z)).sum / count
      visibility := some ((q.map (fun lm => lm.visibility.getD 1)).sum / count) }

/-- `calculateCalibration`: per-landmark averages for the seven baseline
landmarks, plus `hipCenterY`/`shoulderCenterY` and a `Date.now()`
timestamp (explicit `wallClock` argument). -/
def calculateCalibration (poses : List PoseResult) (wallClock : ℚ) :
    CalibrationData :=
  let leftHip := averageLandmark poses POSE_LANDMARKS_LEFT_HIP
  let rightHip := averageLandmark poses POSE_LANDMARKS_RIGHT_HIP
  let leftShoulder := averageLandmark poses POSE_LANDMARKS_LEFT_SHOULDER
  let rightShoulder := averageLandmark poses POSE_LANDMARKS_RIGHT_SHOULDER
  let nose := averageLandmark poses POSE_LANDMARKS_NOSE
  let leftWrist := averageLandmark poses POSE_LANDMARKS_LEFT_WRIST
  let rightWrist := averageLandmark poses POSE_LANDMARKS_RIGHT_WRIST
  { leftHip := leftHip
    rightHip := rightHip
    leftShoulder := leftShoulder
    rightShoulder := rightShoulder
    nose := nose
    leftWrist := leftWrist
    rightWrist := rightWrist
    hipCenterY := (leftHip.y + rightHip.y) / 2
    shoulderCenterY := (leftShoulder.y + rightShoulder.y) / 2
    timestamp := wallClock }

/-- C8: calibration averaging is per landmark, not per frame.
(1) A frame whose landmark at some index is absent or has visibility ≤ 0.5
contributes nothing to *that* landmark's average (prepending it changes
nothing there); (2) the same frame still contributes its qualifying
landmark samples at every other index; (3) a landmark with zero qualifying
samples defaults to `{x: 0.5, y: 0.5, z: 0, visibility: 0}`; and (4)
`hipCenterY` is the average of the resulting left- and right-hip y. -/
theorem calculateCalibration_per_landmark :
    (∀ (pose : PoseResult) (poses : List PoseResult) (landmarkIndex : ℕ),
      (∀ lm, pose.landmarks.get? landmarkIndex = some lm → qualifies lm = false) →
      averageLandmark (pose :: poses) landmarkIndex = averageLandmark poses landmarkIndex) ∧
    (∀ (pose : PoseResult) (poses : List PoseResult) (landmarkIndex : ℕ) (lm : Landmark),
      pose.landmarks.get? landmarkIndex = some lm → qualifies lm = true →
      qualifyingSamples (pose :: poses) landmarkIndex =
        lm :: qualifyingSamples poses landmarkIndex) ∧
    (∀ (poses : List PoseResult) (landmarkIndex : ℕ),
      qualifyingSamples poses landmarkIndex = [] →
      averageLandmark poses landmarkIndex =
        { x := mkRat 1 2, y := mkRat 1 2, z := 0, visibility := some 0 }) ∧
    (∀ (poses : List PoseResult) (wallClock : ℚ),
      (calculateCalibration poses wallClock).hipCenterY =
        ((calculateCalibration poses wallClock).leftHip.y +
          (calculateCalibration poses wallClock).rightHip.y) / 2) := by
  have hcons : ∀ (pose : PoseResult) (poses : List PoseResult) (landmarkIndex : ℕ),
      qualifyingSamples (pose :: poses) landmarkIndex =
        (match pose.landmarks.get? landmarkIndex with
          | some lm => if qualifies lm then some lm else none
          | none => none).toList ++ qualifyingSamples poses landmarkIndex := by
    intro pose poses landmarkIndex
    unfold qualifyingSamples
    rw [List.filterMap_cons]
    rcases h : pose.landmarks.get? landmarkIndex with _ | lm
    · simp
    · by_cases hq : qualifies lm
      · simp [hq]
      · simp [hq]
  refine ⟨?_, ?_, ?_, ?_⟩
  · intro pose poses landmarkIndex hnone
    have : qualifyingSamples (pose :: poses) landmarkIndex =
        qualifyingSamples poses landmarkIndex := by
      rw [hcons]
      rcases h : pose.landmarks.get? landmarkIndex with _ | lm
      · simp
      · have := hnone lm h
        simp [this]
    unfold averageLandmark
    rw [this]
  · intro pose poses landmarkIndex lm hget hq
    rw [hcons, hget]
    simp [hq]
  · intro poses landmarkIndex hempty
    unfold averageLandmark
    rw [hempty]
  · intro poses wallClock
    rfl

/-- Witness for C8: with a first frame whose left-hip sample has
visibility 0.3 (excluded for the left hip) and a second frame whose
left-hip sample has visibility 0.9 (included), the left-hip average over
both frames equals the average over the second frame alone. -/
theorem calculateCalibration_per_landmark_witness :
    averageLandmark
        ({ landmarks := List.replicate 33 { x := mkRat 1 2, y := mkRat 1 2, z := 0, visibility := some (mkRat 3 10) }, timestamp := 0 } ::
          [{ landmarks := List.replicate 33 { x := mkRat 1 2, y := mkRat 2 5, z := 0, visibility := some (mkRat 9 10) }, timestamp := 1 }])
        POSE_LANDMARKS_LEFT_HIP =
      averageLandmark
        [{ landmarks := List.replicate 33 { x := mkRat 1 2, y := mkRat 2 5, z := 0, visibility := some (mkRat 9 10) }, timestamp := 1 }]
        POSE_LANDMARKS_LEFT_HIP :=
  calculateCalibration_per_landmark.1
    { landmarks := List.replicate 33 { x := mkRat 1 2, y := mkRat 1 2, z := 0, visibility := some (mkRat 3 10) }, timestamp := 0 }
    [{ landmarks := List.replicate 33 { x := mkRat 1 2, y := mkRat 2 5, z := 0, visibility := some (mkRat 9 10) }, timestamp := 1 }]
    POSE_LANDMARKS_LEFT_HIP
    (by
      intro lm h
      rw [show (List.replicate 33 { x := mkRat 1 2, y := mkRat 1 2, z := 0, visibility := some (mkRat 3 10) } : List Landmark).get? POSE_LANDMARKS_LEFT_HIP = some { x := mkRat 1 2, y := mkRat 1 2, z := 0, visibility := some (mkRat 3 10) } from by decide] at h
      cases h
      decide)

/- ----------------------------------------------------------------
   Claim C4: lifecycle no-ops
   ---------------------------------------------------------------- -/

/-- Counterexample to C4: `end` has no status guard in the source.  Called
on a freshly created (idle) session it transitions to `ended` (and
computes/returns stats for the `onGameEnd` notification) instead of
leaving the session unchanged. -/
theorem endGame_ignores_status :
    (createInitialGameState .easy).status = .idle ∧
    (endGame (createInitialGameState .easy) 0 0).1.status = .ended ∧
    (endGame (createInitialGameState .easy) 0 0).1 ≠ createInitialGameState .easy := by
  refine ⟨rfl, rfl, ?_⟩
  intro h
  have := congrArg GameState.status h
  simp [endGame, createInitialGameState] at this

/-- C4 as amended: `pause` outside `playing` and `resume` outside `paused`
are exact no-ops; `end`, however, unconditionally transitions the session
to `ended` (changing nothing else in the game state) and computes stats,
whatever the current status. -/
theorem lifecycle_noop_spec :
    (∀ s : GameState, s.status ≠ .playing → pause s = s) ∧
    (∀ s : GameState, s.status ≠ .paused → resume s = s) ∧
    (∀ (s : GameState) (totalArrowsSpawned : ℕ) (gameDuration : ℚ),
      (endGame s totalArrowsSpawned gameDuration).1 = { s with status := .ended }) := by
  refine ⟨fun s h => ?_, fun s h => ?_, fun s total dur => rfl⟩
  · unfold pause
    rw [if_pos h]
  · unfold resume
    rw [if_pos h]

/-- Witness for C4 (amended): `pause` on an idle session is a no-op. -/
theorem lifecycle_noop_spec_witness :
    (createInitialGameState .easy).status ≠ .playing ∧
    pause (createInitialGameState .easy) = createInitialGameState .easy :=
  ⟨by decide, lifecycle_noop_spec.1 (createInitialGameState .easy) (by decide)⟩

/- ----------------------------------------------------------------
   Claim C3: processGestureFrame and the wall clock
   ---------------------------------------------------------------- -/

/-- A landmark with visibility 0.3 (below the 0.5 threshold everywhere). -/
def lowVisLandmark : Landmark :=
  { x := mkRat 1 2, y := mkRat 1 2, z := 0, visibility := some (mkRat 3 10) }

/-- A clearly visible hip landmark at y = 0.5. -/
def visibleHip : Landmark :=
  { x := mkRat 1 2, y := mkRat 1 2, z := 0, visibility := some (mkRat 9 10) }

/-- A 33-landmark frame whose hips (indices 23, 24) are visible at
y = 0.5 and whose other landmarks (wrists included) are below the
visibility threshold. -/
def jumpFrameLandmarks : List Landmark :=
  ((List.replicate 33 lowVisLandmark).set 23 visibleHip).set 24 visibleHip

/-- A calibration baseline with `hipCenterY = 0.6`, so the
`jumpFrameLandmarks` frame shows a hip rise of 0.1 > jumpThreshold 0.08. -/
def jumpCalibration : CalibrationData :=
  { leftHip := visibleHip, rightHip := visibleHip
    leftShoulder := lowVisLandmark, rightShoulder := lowVisLandmark
    nose := lowVisLandmark, leftWrist := lowVisLandmark, rightWrist := lowVisLandmark
    hipCenterY := mkRat 3 5, shoulderCenterY := mkRat 1 2, timestamp := 0 }

unseal Rat.add Rat.mul Rat.sub Rat.inv in
/-- C3 (code bug): `processGestureFrame` is NOT a function of its explicit
arguments alone.  On a frame that triggers a jump, `detectJump` stamps
`Date.now()` — not the supplied `timestamp` — into the jump state's
`lastGestureTime`, so two invocations with identical landmarks,
calibration, state, timestamp and options return different `newState`
when the wall clock differs (here 111 vs 222). -/
theorem processGestureFrame_wallClock_dependent :
    (processGestureFrame jumpFrameLandmarks jumpCalibration
        createInitialGestureState 1000 DEFAULT_GESTURE_OPTIONS 111).gesture =
      some .jump ∧
    (processGestureFrame jumpFrameLandmarks jumpCalibration
        createInitialGestureState 1000 DEFAULT_GESTURE_OPTIONS 111).newState.jump.lastGestureTime = 111 ∧
    (processGestureFrame jumpFrameLandmarks jumpCalibration
        createInitialGestureState 1000 DEFAULT_GESTURE_OPTIONS 222).newState.jump.lastGestureTime = 222 ∧
    processGestureFrame jumpFrameLandmarks jumpCalibration
        createInitialGestureState 1000 DEFAULT_GESTURE_OPTIONS 111 ≠
      processGestureFrame jumpFrameLandmarks jumpCalibration
        createInitialGestureState 1000 DEFAULT_GESTURE_OPTIONS 222 := by
  refine ⟨?_, ?_, ?_, ?_⟩ <;> decide

/- ----------------------------------------------------------------
   Claim C7: wrist sample-window freshness
   ---------------------------------------------------------------- -/

/-- Every sample in the window returned by `addPositionSample` is strictly
newer than `timestamp - timeWindow` (old samples are filtered, and the
appended sample carries `timestamp` itself). -/
theorem addPositionSample_fresh (state : WristTrackingState) (y timestamp timeWindow : ℚ)
    (hW : 0 < timeWindow) :
    ∀ smp ∈ (addPositionSample state y timestamp timeWindow).samples,
      timestamp - timeWindow < smp.timestamp := by
  intro smp hmem
  unfold addPositionSample at hmem
  simp only [List.mem_append, List.mem_filter, List.mem_singleton] at hmem
  rcases hmem with ⟨_, hkeep⟩ | rfl
  · exact of_decide_eq_true hkeep
  · simpa using sub_lt_self timestamp hW

/-- The wrist state returned by `processWrist` for a present, visible
wrist landmark holds only samples newer than `timestamp - timeWindow`. -/
theorem processWrist_fresh (w : Option Landmark) (st : WristTrackingState)
    (timestamp : ℚ) (options : GestureOptions)
    (hW : 0 < options.waveTimeWindow) (lm : Landmark) (hw : w = some lm)
    (hvis : mkRat 1 2 < lm.visibility.getD 0) :
    ∀ smp ∈ (processWrist w st timestamp options).2.samples,
      timestamp - options.waveTimeWindow < smp.timestamp := by
  intro smp hmem
  subst hw
  simp only [processWrist] at hmem
  rw [if_pos hvis] at hmem
  split at hmem
  · split at hmem
    · simp at hmem
    · exact addPositionSample_fresh st lm.y timestamp options.waveTimeWindow hW smp hmem
  · exact addPositionSample_fresh st lm.y timestamp options.waveTimeWindow hW smp hmem

/-- In every result branch of `processGestureFrame`, the new left-wrist
state is the one computed by the left `processWrist` block. -/
theorem processGestureFrame_leftWrist_eq (landmarks : List Landmark)
    (calibration : CalibrationData) (state : GestureTrackingState)
    (timestamp : ℚ) (options : GestureOptions) (wallClock : ℚ) :
    (processGestureFrame landmarks calibration state timestamp options wallClock).newState.leftWrist =
      (processWrist (landmarks.get? POSE_LANDMARKS_LEFT_WRIST) state.leftWrist
        timestamp options).2 := by
  unfold processGestureFrame
  simp only []
  repeat' split
  all_goals rfl

/-- When no left wave fired this frame, the new right-wrist state is the
one computed by the right `processWrist` block. -/
theorem processGestureFrame_rightWrist_eq (landmarks : List Landmark)
    (calibration : CalibrationData) (state : GestureTrackingState)
    (timestamp : ℚ) (options : GestureOptions) (wallClock : ℚ)
    (hnoleft : (processGestureFrame landmarks calibration state timestamp options
        wallClock).gesture ≠ some .waveLeft) :
    (processGestureFrame landmarks calibration state timestamp options wallClock).newState.rightWrist =
      (processWrist (landmarks.get? POSE_LANDMARKS_RIGHT_WRIST) state.rightWrist
        timestamp options).2 := by
  unfold processGestureFrame at hnoleft ⊢
  simp only [] at hnoleft ⊢
  rcases hL : (processWrist (landmarks.get? POSE_LANDMARKS_LEFT_WRIST) state.leftWrist
      timestamp options).1 with _ | c
  · repeat' split
    all_goals first | rfl | simp_all
  · rw [hL] at hnoleft
    simp at hnoleft

/-- A frame whose 33 landmarks are all below the visibility threshold. -/
def allLowVisLandmarks : List Landmark := List.replicate 33 lowVisLandmark

/-- A clearly visible wrist landmark at y = 0.4. -/
def wristVisible : Landmark :=
  { x := mkRat 1 2, y := mkRat 2 5, z := 0, visibility := some (mkRat 9 10) }

/-- A 33-landmark frame whose left wrist (index 15) is visible and whose
other landmarks are below the visibility threshold. -/
def wristFrameLandmarks : List Landmark :=
  (List.replicate 33 lowVisLandmark).set 15 wristVisible

unseal Rat.add Rat.mul Rat.sub Rat.inv in
/-- Counterexample to C7: process a frame at t = 0 with a visible left
wrist (this appends a sample at timestamp 0), then a frame at t = 1000
whose left wrist is invisible (visibility 0.3).  The second call leaves
the left window untouched, so after it the window still holds the sample
from t = 0, which is older than 1000 − waveTimeWindow = 500: the claimed
invariant fails for call sequences with an occluded wrist. -/
theorem wristWindow_stale_counterexample :
    (processGestureFrame allLowVisLandmarks jumpCalibration
        (processGestureFrame wristFrameLandmarks jumpCalibration
          createInitialGestureState 0 DEFAULT_GESTURE_OPTIONS 0).newState
        1000 DEFAULT_GESTURE_OPTIONS 0).newState.leftWrist.samples =
      [{ y := mkRat 2 5, timestamp := 0 }] ∧
    ((processGestureFrame allLowVisLandmarks jumpCalibration
        (processGestureFrame wristFrameLandmarks jumpCalibration
          createInitialGestureState 0 DEFAULT_GESTURE_OPTIONS 0).newState
        1000 DEFAULT_GESTURE_OPTIONS 0).newState.leftWrist.samples.all
      (fun smp => decide (1000 - DEFAULT_GESTURE_OPTIONS.waveTimeWindow < smp.timestamp))) =
      false := by
  refine ⟨?_, ?_⟩ <;> decide

/-- C7 as amended: a wrist's sliding window is guaranteed fresh only on
calls that actually process that wrist.  After any call at timestamp t in
which the left wrist is present with visibility > 0.5, the left window
holds only samples newer than t − waveTimeWindow; the same holds for the
right wrist provided additionally no left wave fired this frame (the
source skips the right-wrist block once a left wave is detected).  A call
in which a wrist is absent or occluded leaves that wrist's window
unchanged and may retain older samples. -/
theorem wristWindow_fresh_spec :
    ∀ (landmarks : List Landmark) (calibration : CalibrationData)
      (state : GestureTrackingState) (timestamp : ℚ) (options : GestureOptions)
      (wallClock : ℚ),
      0 < options.waveTimeWindow →
      (∀ lw, landmarks.get? POSE_LANDMARKS_LEFT_WRIST = some lw →
        mkRat 1 2 < lw.visibility.getD 0 →
        ∀ smp ∈ (processGestureFrame landmarks calibration state timestamp options
            wallClock).newState.leftWrist.samples,
          timestamp - options.waveTimeWindow < smp.timestamp) ∧
      (∀ wr, landmarks.get? POSE_LANDMARKS_RIGHT_WRIST = some wr →
        mkRat 1 2 < wr.visibility.getD 0 →
        (processGestureFrame landmarks calibration state timestamp options
            wallClock).gesture ≠ some .waveLeft →
        ∀ smp ∈ (processGestureFrame landmarks calibration state timestamp options
            wallClock).newState.rightWrist.samples,
          timestamp - options.waveTimeWindow < smp.timestamp) := by
  intro landmarks cal st t opts wc hW
  constructor
  · intro lw hlw hvis smp hmem
    rw [processGestureFrame_leftWrist_eq] at hmem
    exact processWrist_fresh _ _ _ _ hW lw hlw hvis smp hmem
  · intro wr hwr hvis hnl smp hmem
    rw [processGestureFrame_rightWrist_eq _ _ _ _ _ _ hnl] at hmem
    exact processWrist_fresh _ _ _ _ hW wr hwr hvis smp hmem

unseal Rat.add Rat.mul Rat.sub Rat.inv in
/-- Witness for C7 (amended): processing a frame with a visible left wrist
at t = 1000 leaves a window whose single sample (appended at t = 1000) is
newer than 1000 − waveTimeWindow. -/
theorem wristWindow_fresh_spec_witness :
    (1000 : ℚ) - DEFAULT_GESTURE_OPTIONS.waveTimeWindow < 1000 :=
  (wristWindow_fresh_spec wristFrameLandmarks jumpCalibration
      createInitialGestureState 1000 DEFAULT_GESTURE_OPTIONS 0 (by decide)).1
    wristVisible (by decide) (by decide)
    { y := mkRat 2 5, timestamp := 1000 } (by decide)

/- ----------------------------------------------------------------
   Claim C5: combo reset on miss, increment on hit
   ---------------------------------------------------------------- -/

/-- C5: in any session state, a tick that produces at least one newly
missed arrow sets combo to exactly 0 (once per tick, however many arrows
missed); and every successful hit through `processGesture` sets combo to
exactly its prior value plus 1 (a hit never resets the combo). -/
theorem combo_update_spec :
    (∀ (state : GameState) (timestamp : ℚ) (spawned : List Arrow),
      state.status = .playing →
      1 ≤ (checkMissedArrows (updateArrowPositions (state.arrows ++ spawned)
            timestamp state.difficulty)).2.1 →
      (gameLoopStep state timestamp spawned).combo = 0) ∧
    (∀ (state : GameState) (gesture : GestureEvent),
      ((processGesture state gesture).1).hit = true →
      ((processGesture state gesture).2).combo = state.combo + 1) := by
  constructor
  · intro s t sp hstatus hmiss
    have h0 : 0 < (checkMissedArrows (updateArrowPositions (s.arrows ++ sp)
        t s.difficulty)).2.1 := hmiss
    simp [gameLoopStep, hstatus, h0]
  · intro s g hhit
    unfold processGesture at hhit ⊢
    by_cases hst : s.status ≠ .playing
    · rw [if_pos hst] at hhit
      simp at hhit
    · rw [if_neg hst] at hhit ⊢
      simp only [] at hhit ⊢
      rcases hpt : pickTarget (candidateArrows s (GESTURE_TO_LANE g.type)) with _ | a
      · rw [hpt] at hhit
        simp at hhit
      · rw [hpt] at hhit
        simp only [] at hhit
        by_cases hrm : getHitRating a.position = .miss
        · rw [if_pos hrm] at hhit
          simp at hhit
        · simp only []
          rw [if_neg hrm]

/-- A playing session with combo 7 and one unresolved lane-0 arrow spawned
at t = 0 (easy difficulty: travel time 3000 ms). -/
def missTickState : GameState :=
  { status := .playing, score := 0, combo := 7, maxCombo := 7, perfectHits := 0
    goodHits := 0, misses := 0
    arrows := [{ id := 1, lane := 0, spawnTime := 0, position := 0,
                 hit := false, missed := false, hitRating := none }]
    difficulty := .easy }

/-- A playing session with combo 7 and one unresolved lane-0 arrow already
at position 0.9 (inside the hit zone). -/
def hitGestureState : GameState :=
  { status := .playing, score := 0, combo := 7, maxCombo := 7, perfectHits := 0
    goodHits := 0, misses := 0
    arrows := [{ id := 1, lane := 0, spawnTime := 0, position := mkRat 9 10,
                 hit := false, missed := false, hitRating := none }]
    difficulty := .easy }

/-- A left-wave gesture event. -/
def waveLeftEvent : GestureEvent :=
  { type := .waveLeft, timestamp := 1000, confidence := 1 }

unseal Rat.add Rat.mul Rat.sub Rat.inv in
/-- Witness for C5: a tick at t = 4000 drives the arrow of
`missTickState` to position 4/3 > 1 (one newly missed arrow) and the combo
drops from 7 to 0; a left wave on `hitGestureState` hits its arrow and the
combo rises from 7 to 8. -/
theorem combo_update_spec_witness :
    (gameLoopStep missTickState 4000 []).combo = 0 ∧
    (processGesture hitGestureState waveLeftEvent).2.combo = hitGestureState.combo + 1 :=
  ⟨combo_update_spec.1 missTickState 4000 [] rfl (by decide),
   combo_update_spec.2 hitGestureState waveLeftEvent (by decide)⟩

/- ----------------------------------------------------------------
   Selection and candidate lemmas (shared by C1 and C10)
   ---------------------------------------------------------------- -/

/-- Folding `pickBetter` from a seed `some b` yields an element that is
the seed or a list member, is no farther from the perfect-zone start than
the seed, and minimizes that distance over the list. -/
theorem pickBetter_foldl_spec (l : List Arrow) (b : Arrow) :
    ∃ a, l.foldl pickBetter (some b) = some a ∧ (a = b ∨ a ∈ l) ∧
      distToPerfect a ≤ distToPerfect b ∧
      ∀ c ∈ l, distToPerfect a ≤ distToPerfect c := by
  induction l generalizing b with
  | nil =>
    exact ⟨b, rfl, Or.inl rfl, le_refl _, fun c hc => absurd hc (List.not_mem_nil c)⟩
  | cons x xs ih =>
    by_cases hx : distToPerfect x < distToPerfect b
    · obtain ⟨a, heq, hmem, hle, hall⟩ := ih x
      refine ⟨a, ?_, ?_, ?_, ?_⟩
      · rw [List.foldl_cons]
        rw [show pickBetter (some b) x = some x from by simp [pickBetter, hx]]
        exact heq
      · rcases hmem with rfl | h
        · exact Or.inr (List.mem_cons_self a xs)
        · exact Or.inr (List.mem_cons_of_mem x h)
      · exact le_of_lt (lt_of_le_of_lt hle hx)
      · intro c hc
        rcases List.mem_cons.mp hc with rfl | hc'
        · exact hle
        · exact hall c hc'
    · obtain ⟨a, heq, hmem, hle, hall⟩ := ih b
      refine ⟨a, ?_, ?_, ?_, ?_⟩
      · rw [List.foldl_cons]
        rw [show pickBetter (some b) x = some b from by simp [pickBetter, hx]]
        exact heq
      · rcases hmem with rfl | h
        · exact Or.inl rfl
        · exact Or.inr (List.mem_cons_of_mem x h)
      · exact hle
      · intro c hc
        rcases List.mem_cons.mp hc with rfl | hc'
        · exact le_trans hle (not_lt.mp hx)
        · exact hall c hc'

/-- `pickTarget` returns `none` exactly on the empty candidate list. -/
theorem pickTarget_eq_none_iff (l : List Arrow) : pickTarget l = none ↔ l = [] := by
  cases l with
  | nil => simp [pickTarget]
  | cons x xs =>
    obtain ⟨a, heq, _, _, _⟩ := pickBetter_foldl_spec xs x
    constructor
    · intro h
      rw [pickTarget, List.foldl_cons,
        show pickBetter none x = some x from rfl, heq] at h
      cases h
    · intro h
      cases h

/-- `pickTarget` returns a member of the list minimizing the distance to
the perfect-zone start. -/
theorem pickTarget_spec (l : List Arrow) (a : Arrow) (h : pickTarget l = some a) :
    a ∈ l ∧ ∀ c ∈ l, distToPerfect a ≤ distToPerfect c := by
  cases l with
  | nil => cases h
  | cons x xs =>
    obtain ⟨b, heq, hmem, hle, hall⟩ := pickBetter_foldl_spec xs x
    rw [pickTarget, List.foldl_cons,
      show pickBetter none x = some x from rfl, heq] at h
    have hba : b = a := by injection h
    subst hba
    constructor
    · rcases hmem with rfl | h'
      · exact List.mem_cons_self b xs
      · exact List.mem_cons_of_mem x h'
    · intro c hc
      rcases List.mem_cons.mp hc with rfl | hc'
      · exact hle
      · exact hall c hc'

/-- Membership in `candidateArrows` unpacked: the arrow is in the session,
in the requested lane, unresolved, and inside the hit zone. -/
theorem mem_candidateArrows (state : GameState) (lane : ℕ) (a : Arrow)
    (h : a ∈ candidateArrows state lane) :
    a ∈ state.arrows ∧ a.lane = lane ∧ a.hit = false ∧ a.missed = false ∧
      isInHitZone a.position = true := by
  unfold candidateArrows at h
  have hmem := List.mem_filter.mp h
  refine ⟨hmem.1, ?_⟩
  have hb := hmem.2
  simp only [Bool.and_eq_true, decide_eq_true_eq, Bool.not_eq_true'] at hb
  exact ⟨hb.1.1.1, hb.1.1.2, hb.1.2, hb.2⟩

/-- Inside the hit zone the position lies in [0.85, 1]. -/
theorem isInHitZone_bounds (p : ℚ) (h : isInHitZone p = true) :
    HIT_ZONE_GOOD_START ≤ p ∧ p ≤ HIT_ZONE_PERFECT_END := by
  unfold isInHitZone at h
  simp only [Bool.and_eq_true, decide_eq_true_eq] at h
  exact h

/-- Inside the hit zone the rating is never `miss`. -/
theorem isInHitZone_rating_ne_miss (p : ℚ) (h : isInHitZone p = true) :
    getHitRating p ≠ .miss := by
  obtain ⟨h1, h2⟩ := isInHitZone_bounds p h
  unfold getHitRating
  split_ifs with ha hb
  · simp
  · simp
  · exfalso
    push_neg at ha hb
    by_cases hp : HIT_ZONE_PERFECT_START ≤ p
    · exact absurd (ha hp) (not_lt.mpr h2)
    · exact hp (hb h1)

/- ----------------------------------------------------------------
   Claim C10: resolved arrows are frozen and retained
   ---------------------------------------------------------------- -/

/-- A resolved arrow is a fixed point of the position-advance step. -/
theorem updateArrowPosition_resolved (now travelTime : ℚ) (a : Arrow)
    (hres : (a.hit || a.missed) = true) :
    updateArrowPosition now travelTime a = a := by
  unfold updateArrowPosition
  rw [if_pos hres]

/-- A resolved arrow is a fixed point of the miss-marking step. -/
theorem markMissed_resolved (a : Arrow) (hres : (a.hit || a.missed) = true) :
    markMissed a = a := by
  unfold markMissed
  rw [if_pos hres]

/-- One tick keeps any resolved arrow whose frozen position is within the
1.5 cleanup horizon, unchanged (same record, same position). -/
theorem gameLoopStep_keeps_resolved (state : GameState) (a : Arrow)
    (timestamp : ℚ) (spawned : List Arrow) (ha : a ∈ state.arrows)
    (hres : (a.hit || a.missed) = true) (hpos : a.position ≤ mkRat 3 2) :
    a ∈ (gameLoopStep state timestamp spawned).arrows := by
  unfold gameLoopStep
  split
  · exact ha
  · simp only []
    have h1 : a ∈ updateArrowPositions (state.arrows ++ spawned) timestamp
        state.difficulty := by
      unfold updateArrowPositions
      have hmem := List.mem_map_of_mem
        (updateArrowPosition timestamp (arrowTravelTime state.difficulty))
        (List.mem_append_left spawned ha)
      rwa [updateArrowPosition_resolved _ _ a hres] at hmem
    have h2 : a ∈ (checkMissedArrows (updateArrowPositions
        (state.arrows ++ spawned) timestamp state.difficulty)).1 := by
      unfold checkMissedArrows
      have hmem := List.mem_map_of_mem markMissed h1
      rwa [markMissed_resolved a hres] at hmem
    show a ∈ cleanupArrows _
    unfold cleanupArrows
    refine List.mem_filter.mpr ⟨h2, ?_⟩
    simp only [Bool.not_eq_true', decide_eq_false_iff_not, not_lt]
    exact hpos

/-- C10: once an arrow is resolved (hit or missed), no later tick changes
it — the very same record, position included, survives every subsequent
tick provided its frozen position is ≤ 1.5 (the cleanup horizon); and a
hit can only be awarded to an arrow currently inside the hit zone, so
every hit arrow froze at position ≤ 1.0 ≤ 1.5 and is never removed until
reset. -/
theorem resolvedArrow_frozen_spec :
    (∀ (state : GameState) (a : Arrow) (ticks : List (ℚ × List Arrow)),
      a ∈ state.arrows → (a.hit = true ∨ a.missed = true) →
      a.position ≤ mkRat 3 2 →
      a ∈ (applyTicks state ticks).arrows) ∧
    (∀ (state : GameState) (gesture : GestureEvent),
      ((processGesture state gesture).1).hit = true →
      ∃ a, (processGesture state gesture).1.arrow = some a ∧
        isInHitZone a.position = true ∧ a.position ≤ 1) := by
  constructor
  · intro s a ticks ha hres hpos
    have hres' : (a.hit || a.missed) = true := by
      rcases hres with h | h <;> simp [h]
    induction ticks generalizing s with
    | nil => exact ha
    | cons t ts ih =>
      exact ih (gameLoopStep s t.1 t.2)
        (gameLoopStep_keeps_resolved s a t.1 t.2 ha hres' hpos)
  · intro s g hhit
    unfold processGesture at hhit ⊢
    by_cases hst : s.status ≠ .playing
    · rw [if_pos hst] at hhit
      simp at hhit
    · rw [if_neg hst] at hhit ⊢
      simp only [] at hhit ⊢
      rcases hpt : pickTarget (candidateArrows s (GESTURE_TO_LANE g.type)) with _ | a
      · rw [hpt] at hhit
        simp at hhit
      · rw [hpt] at hhit
        simp only [] at hhit ⊢
        have hzone := (mem_candidateArrows s (GESTURE_TO_LANE g.type) a
          (pickTarget_spec _ a hpt).1).2.2.2.2
        by_cases hrm : getHitRating a.position = .miss
        · rw [if_pos hrm] at hhit
          simp at hhit
        · rw [if_neg hrm]
          exact ⟨a, rfl, hzone, (isInHitZone_bounds a.position hzone).2⟩

unseal Rat.add Rat.mul Rat.sub Rat.inv in
/-- Witness for C10: the already-hit arrow of this session (frozen at
position 0.9) survives three ticks unchanged; and the hit awarded on
`hitGestureState` targets an arrow inside the hit zone at position ≤ 1. -/
theorem resolvedArrow_frozen_spec_witness :
    { id := 1, lane := 0, spawnTime := 0, position := mkRat 9 10, hit := true,
      missed := false, hitRating := some HitRating.perfect : Arrow } ∈
      (applyTicks
        { status := .playing, score := 100, combo := 1, maxCombo := 1,
          perfectHits := 1, goodHits := 0, misses := 0
          arrows := [{ id := 1, lane := 0, spawnTime := 0, position := mkRat 9 10,
                       hit := true, missed := false, hitRating := some HitRating.perfect }]
          difficulty := .easy }
        [(4000, []), (5000, []), (6000, [])]).arrows ∧
    ∃ a, (processGesture hitGestureState waveLeftEvent).1.arrow = some a ∧
      isInHitZone a.position = true ∧ a.position ≤ 1 :=
  ⟨resolvedArrow_frozen_spec.1
      { status := .playing, score := 100, combo := 1, maxCombo := 1,
        perfectHits := 1, goodHits := 0, misses := 0
        arrows := [{ id := 1, lane := 0, spawnTime := 0, position := mkRat 9 10,
                     hit := true, missed := false, hitRating := some HitRating.perfect }]
        difficulty := .easy }
      { id := 1, lane := 0, spawnTime := 0, position := mkRat 9 10, hit := true,
        missed := false, hitRating := some HitRating.perfect }
      [(4000, []), (5000, []), (6000, [])]
      (by decide) (Or.inl rfl) (by decide),
   resolvedArrow_frozen_spec.2 hitGestureState waveLeftEvent (by decide)⟩

/- ----------------------------------------------------------------
   Claim C1: processGesture hit selection
   ---------------------------------------------------------------- -/

/-- Marking the arrow with id `a.id` raises the hit count by exactly one,
provided ids are unique, `a` is listed and `a` is not yet hit. -/
theorem countP_markHit (l : List Arrow) (a : Arrow) (r : HitRating)
    (hids : (l.map Arrow.id).Nodup) (ha : a ∈ l) (hhitf : a.hit = false) :
    (l.map (fun b =>
        if b.id = a.id then { b with hit := true, hitRating := some r } else b)).countP
      (fun b => b.hit) = l.countP (fun b => b.hit) + 1 := by
  induction l with
  | nil => cases ha
  | cons x xs ih =>
    simp only [List.map_cons, List.nodup_cons] at hids
    rcases List.mem_cons.mp ha with rfl | ha'
    · have hmap : xs.map (fun b =>
          if b.id = a.id then { b with hit := true, hitRating := some r } else b) = xs := by
        have hcongr : xs.map (fun b =>
            if b.id = a.id then { b with hit := true, hitRating := some r } else b) =
            xs.map (fun b => b) := by
          apply List.map_congr_left
          intro b hb
          have hbx : b.id ≠ a.id := by
            intro heq
            exact hids.1 (heq ▸ List.mem_map_of_mem Arrow.id hb)
          exact if_neg hbx
        rw [hcongr, List.map_id']
      rw [List.map_cons, if_pos rfl, hmap, List.countP_cons, List.countP_cons]
      simp [hhitf]
    · have hxa : x.id ≠ a.id := by
        intro heq
        exact hids.1 (heq ▸ List.mem_map_of_mem Arrow.id ha')
      rw [List.map_cons, if_neg hxa, List.countP_cons, List.countP_cons,
        ih hids.2 ha']
      generalize (if x.hit = true then 1 else 0) = k
      omega

/-- An arrow with a different id passes through the marking map
unchanged, so it stays in the arrow collection. -/
theorem mem_markHit_of_ne (l : List Arrow) (a b : Arrow) (r : HitRating)
    (hb : b ∈ l) (hne : b.id ≠ a.id) :
    b ∈ l.map (fun c =>
      if c.id = a.id then { c with hit := true, hitRating := some r } else c) := by
  have hmem := List.mem_map_of_mem
    (fun c => if c.id = a.id then { c with hit := true, hitRating := some r } else c) hb
  simp only [] at hmem
  rwa [if_neg hne] at hmem

/-- C1: while playing, with unique arrow ids: if the lane's candidate set
(unresolved arrows at position in [0.85, 1.0]) is empty, `processGesture`
returns a no-hit result and leaves the state unchanged; otherwise it hits
exactly one arrow — a candidate minimizing the distance to the
perfect-zone start 0.95 — marks only that arrow (hit count rises by
exactly 1, the marked list differs only at that id), and every other
arrow of the session is carried over unchanged. -/
theorem processGesture_selects_closest (state : GameState) (gesture : GestureEvent)
    (hplay : state.status = .playing)
    (hids : (state.arrows.map Arrow.id).Nodup) :
    (candidateArrows state (GESTURE_TO_LANE gesture.type) = [] →
      processGesture state gesture =
        ({ hit := false, arrow := none, rating := none, score := none }, state)) ∧
    (candidateArrows state (GESTURE_TO_LANE gesture.type) ≠ [] →
      ∃ a ∈ candidateArrows state (GESTURE_TO_LANE gesture.type),
        (∀ b ∈ candidateArrows state (GESTURE_TO_LANE gesture.type),
          distToPerfect a ≤ distToPerfect b) ∧
        ((processGesture state gesture).1).hit = true ∧
        (processGesture state gesture).1.arrow = some a ∧
        ((processGesture state gesture).2).arrows =
          state.arrows.map (fun b =>
            if b.id = a.id then
              { b with hit := true, hitRating := some (getHitRating a.position) }
            else b) ∧
        ((processGesture state gesture).2).arrows.countP (fun b => b.hit) =
          state.arrows.countP (fun b => b.hit) + 1 ∧
        (∀ b ∈ state.arrows, b.id ≠ a.id →
          b ∈ ((processGesture state gesture).2).arrows)) := by
  have hstatus : ¬state.status ≠ GameStatus.playing := by rw [hplay]; simp
  constructor
  · intro hempty
    unfold processGesture
    rw [if_neg hstatus]
    simp only []
    rw [(pickTarget_eq_none_iff _).mpr hempty]
  · intro hne
    obtain ⟨a, hpt⟩ : ∃ a,
        pickTarget (candidateArrows state (GESTURE_TO_LANE gesture.type)) = some a := by
      rcases hp : pickTarget (candidateArrows state (GESTURE_TO_LANE gesture.type)) with _ | a
      · exact absurd ((pickTarget_eq_none_iff _).mp hp) hne
      · exact ⟨a, rfl⟩
    obtain ⟨hmemc, hmin⟩ := pickTarget_spec _ a hpt
    obtain ⟨hmem, _, hhitf, _, hzone⟩ :=
      mem_candidateArrows state (GESTURE_TO_LANE gesture.type) a hmemc
    have hrm : getHitRating a.position ≠ .miss := isInHitZone_rating_ne_miss _ hzone
    have heval : processGesture state gesture =
        ({ hit := true, arrow := some a, rating := some (getHitRating a.position),
           score := some (calculateHitScore (getHitRating a.position) (state.combo + 1)) },
         { state with
            arrows := state.arrows.map (fun b =>
              if b.id = a.id then
                { b with hit := true, hitRating := some (getHitRating a.position) }
              else b)
            score := state.score +
              calculateHitScore (getHitRating a.position) (state.combo + 1)
            combo := state.combo + 1
            maxCombo := max state.maxCombo (state.combo + 1)
            perfectHits := if getHitRating a.position = .perfect then
              state.perfectHits + 1 else state.perfectHits
            goodHits := if getHitRating a.position = .good then
              state.goodHits + 1 else state.goodHits }) := by
      unfold processGesture
      rw [if_neg hstatus]
      simp only []
      rw [hpt]
      simp only []
      rw [if_neg hrm]
    refine ⟨a, hmemc, hmin, ?_, ?_, ?_, ?_, ?_⟩
    · rw [heval]
    · rw [heval]
    · rw [heval]
    · rw [heval]
      exact countP_markHit state.arrows a (getHitRating a.position) hids hmem hhitf
    · intro b hb hbne
      rw [heval]
      exact mem_markHit_of_ne state.arrows a b (getHitRating a.position) hb hbne

/-- A playing session with two unresolved lane-0 arrows at positions 0.90
and 0.97 (both inside the hit zone; the 0.97 one is closer to 0.95). -/
def twoArrowState : GameState :=
  { status := .playing, score := 0, combo := 0, maxCombo := 0, perfectHits := 0
    goodHits := 0, misses := 0
    arrows := [{ id := 1, lane := 0, spawnTime := 0, position := mkRat 9 10,
                 hit := false, missed := false, hitRating := none },
               { id := 2, lane := 0, spawnTime := 0, position := mkRat 97 100,
                 hit := false, missed := false, hitRating := none }]
    difficulty := .easy }

unseal Rat.add Rat.mul Rat.sub Rat.inv in
/-- Witness for C1: the theorem instantiated at `twoArrowState` and a
left-wave event, discharging the playing-status and unique-id
hypotheses. -/
theorem processGesture_selects_closest_witness :
    (candidateArrows twoArrowState (GESTURE_TO_LANE waveLeftEvent.type) = [] →
      processGesture twoArrowState waveLeftEvent =
        ({ hit := false, arrow := none, rating := none, score := none }, twoArrowState)) ∧
    (candidateArrows twoArrowState (GESTURE_TO_LANE waveLeftEvent.type) ≠ [] →
      ∃ a ∈ candidateArrows twoArrowState (GESTURE_TO_LANE waveLeftEvent.type),
        (∀ b ∈ candidateArrows twoArrowState (GESTURE_TO_LANE waveLeftEvent.type),
          distToPerfect a ≤ distToPerfect b) ∧
        ((processGesture twoArrowState waveLeftEvent).1).hit = true ∧
        (processGesture twoArrowState waveLeftEvent).1.arrow = some a ∧
        ((processGesture twoArrowState waveLeftEvent).2).arrows =
          twoArrowState.arrows.map (fun b =>
            if b.id = a.id then
              { b with hit := true, hitRating := some (getHitRating a.position) }
            else b) ∧
        ((processGesture twoArrowState waveLeftEvent).2).arrows.countP (fun b => b.hit) =
          twoArrowState.arrows.countP (fun b => b.hit) + 1 ∧
        (∀ b ∈ twoArrowState.arrows, b.id ≠ a.id →
          b ∈ ((processGesture twoArrowState waveLeftEvent).2).arrows)) :=
  processGesture_selects_closest twoArrowState waveLeftEvent rfl (by decide)
